import Mathlib

/-!
Verification of the field-control client protocol engine of the
`streamdeck-vextm` repository, as a shallow embedding in Lean 4.

The embedding follows the two protocol generations of the repository:

* the binary (protobuf-over-websocket) generation implemented by the class
  `VexTMWebsocket` in `us.johnholbrook.vextm.sdPlugin/plugin_node/tm_websocket.js`
  together with its driver `us.johnholbrook.vextm.sdPlugin/plugin_node/main.js`;
* the newer generation implemented by `plugin_node/main.js` on top of the
  `vex-tm-client` library.

JavaScript numbers that the code uses as bytes are modelled as `Nat` with an
explicit `% 256` wherever the code stores them into a `Buffer`/`Uint8Array`
(those stores truncate to 8 bits).  JavaScript `null`/`undefined` fields are
modelled as `Option`.  Code that throws a `TypeError` is modelled with
`Except`.  Network and webserver effects are modelled as explicit event lists.
-/

namespace VexTM

/-! ## Wire codec: mangling (tm_websocket.js, `_mangle` / `_unmangle`)

`_mangle(data, magic_number)` allocates `data.length + 1` bytes, stores
`magic_number ^ 229` at index 0 and `data[i-1] ^ magic_number` at index `i`.
`_unmangle(raw_data)` reads `raw_data[0] ^ 229` as the magic number and XORs
it out of the remaining bytes.  Byte stores into a `Buffer` truncate modulo
256, hence the explicit `% 256`.  `_unmangle` on an empty buffer is never
reached by the round-trip (in the source it would throw on
`Buffer.alloc(-1)`); it is modelled as the empty list. -/

def _mangle (data : List Nat) (magic_number : Nat) : List Nat :=
  ((magic_number ^^^ 229) % 256) :: data.map (fun b => (b ^^^ magic_number) % 256)

def _unmangle (raw_data : List Nat) : List Nat :=
  match raw_data with
  | [] => []
  | b0 :: rest =>
    let magic_number := b0 ^^^ 229
    rest.map (fun b => (b ^^^ magic_number) % 256)

/-- C1: mangling round-trips: for every byte sequence `d` (all entries < 256)
and every key byte `k < 256`, `_unmangle (_mangle d k) = d`; `mangle` produces
`[k XOR 229]` followed by each byte of `d` XOR `k`, and `unmangle` recovers
`k` from the first byte and XORs it back out of the rest. -/
theorem mangle_roundtrip (d : List Nat) (k : Nat)
    (hd : ∀ b ∈ d, b < 256) (hk : k < 256) :
    _unmangle (_mangle d k) = d ∧
    _mangle d k = ((k ^^^ 229) % 256) :: d.map (fun b => (b ^^^ k) % 256) := by
  constructor
  · have h229 : (229 : Nat) < 2 ^ 8 := by norm_num
    have hxor : k ^^^ 229 < 256 := Nat.xor_lt_two_pow (by simpa using hk) h229
    have hmagic : ((k ^^^ 229) % 256) ^^^ 229 = k := by
      rw [Nat.mod_eq_of_lt hxor, Nat.xor_assoc, Nat.xor_self, Nat.xor_zero]
    simp only [_unmangle, _mangle, hmagic, List.map_map]
    have : ∀ b ∈ d, ((b ^^^ k) % 256 ^^^ k) % 256 = b := by
      intro b hb
      have hb' : b < 2 ^ 8 := by simpa using hd b hb
      have hbk : b ^^^ k < 256 := Nat.xor_lt_two_pow hb' (by simpa using hk)
      rw [Nat.mod_eq_of_lt hbk, Nat.xor_cancel_right,
        Nat.mod_eq_of_lt (hd b hb)]
    calc d.map ((fun b => (b ^^^ k) % 256) ∘ fun b => (b ^^^ k) % 256)
        = d.map id := List.map_congr_left (by intro b hb; simpa using this b hb)
      _ = d := List.map_id d
  · rfl

/-- Witness for `mangle_roundtrip` at `d = [0, 1, 77, 255]`, `k = 123`. -/
theorem mangle_roundtrip_witness :
    (∀ b ∈ [0, 1, 77, 255], b < 256) ∧ (123 : Nat) < 256 ∧
    (_unmangle (_mangle [0, 1, 77, 255] 123) = [0, 1, 77, 255] ∧
      _mangle [0, 1, 77, 255] 123 =
        ((123 ^^^ 229) % 256) :: [0, 1, 77, 255].map (fun b => (b ^^^ 123) % 256)) :=
  ⟨by decide, by decide, mangle_roundtrip [0, 1, 77, 255] 123 (by decide) (by decide)⟩

/-! ## Match identity and display names

`_buildMatchName` (tm_websocket.js) builds the short display name of a
`V3MatchTuple`.  The source fields are `round`, `instance` and `match`; the
latter two are Lean keywords and are embedded as `inst` and `matchNo`.
Template-literal interpolation of a JS integer is `toString`. -/

structure V3MatchTuple where
  round : String
  inst : Nat
  matchNo : Nat

def _buildMatchName (m : V3MatchTuple) : String :=
  let elim_rounds := ["R128", "R64", "R32", "R16", "QF", "SF", "F"]
  if m.round = "QUAL" then "Q" ++ toString m.matchNo
  else if elim_rounds.contains m.round then
    m.round ++ " " ++ toString m.inst ++ "-" ++ toString m.matchNo
  else if m.round = "TOP_N" then "F " ++ toString m.matchNo
  else if m.round = "PRACTICE" then "P0"
  else if m.round = "TIMEOUT" then "TO"
  else if m.round = "SKILLS" then
    (if m.inst = 2 then "D Skills" else "A Coding")
  else "OTHER"

/-- `buildMatchName` of the newer generation (`plugin_node/main.js`): a
different set of formatting rules (a space after the round letter, tiered
ADC rounds, and a generic fall-through for everything else). -/
def buildMatchName (m : V3MatchTuple) : String :=
  if m.round = "PRACTICE" then "P " ++ toString m.matchNo
  else if m.round = "QUAL" then "Q " ++ toString m.matchNo
  else if m.round = "TOP_N" then "F " ++ toString m.matchNo
  else if m.round = "TIERED_TOP_N_QF" then "QF " ++ toString m.matchNo
  else if m.round = "TIERED_TOP_N_SF" then "SF " ++ toString m.matchNo
  else if m.round = "TIERED_TOP_N_F" then "F " ++ toString m.matchNo
  else m.round ++ " " ++ toString m.inst ++ "-" ++ toString m.matchNo

/-- The naming rules exactly as the claim states them, written rule by rule
(one branch per round designator, no shared list). -/
def matchNameRules (m : V3MatchTuple) : String :=
  if m.round = "QUAL" then "Q" ++ toString m.matchNo
  else if m.round = "R128" ∨ m.round = "R64" ∨ m.round = "R32" ∨
      m.round = "R16" ∨ m.round = "QF" ∨ m.round = "SF" ∨ m.round = "F" then
    m.round ++ " " ++ toString m.inst ++ "-" ++ toString m.matchNo
  else if m.round = "TOP_N" then "F " ++ toString m.matchNo
  else if m.round = "PRACTICE" then "P0"
  else if m.round = "TIMEOUT" then "TO"
  else if m.round = "SKILLS" then
    (if m.inst = 2 then "D Skills" else "A Coding")
  else "OTHER"

/-- C5 (amended): the binary-protocol engine's name builder
(`_buildMatchName` in tm_websocket.js) follows exactly the claimed rules for
every match identity.  (The newer generation's `buildMatchName` in
`plugin_node/main.js` does not; see `buildMatchName_counterexample`.) -/
theorem buildMatchName_rules (m : V3MatchTuple) :
    _buildMatchName m = matchNameRules m := by
  unfold _buildMatchName matchNameRules
  have hc : (["R128", "R64", "R32", "R16", "QF", "SF", "F"].contains m.round
      = true) ↔ (m.round = "R128" ∨ m.round = "R64" ∨ m.round = "R32" ∨
      m.round = "R16" ∨ m.round = "QF" ∨ m.round = "SF" ∨ m.round = "F") := by
    simp
  dsimp only
  split_ifs <;> simp_all

/-- C5 counterexample: the claim fails on the newer generation's
`buildMatchName` (`plugin_node/main.js`, also cited by the claim): for the
match identity `{round: "QUAL", instance: 1, match: 12}` it produces
`"Q 12"` (with a space), not `"Q12"` as the claimed rule requires. -/
theorem buildMatchName_counterexample :
    buildMatchName ⟨"QUAL", 1, 12⟩ = "Q 12" ∧
    buildMatchName ⟨"QUAL", 1, 12⟩ ≠ "Q12" := by
  constructor
  · rfl
  · decide

/-! ## JavaScript object model for the field registry

`_messageHandler` stores the field registry as the JS object literal
`{0: "N/A", ...decoded.fields}`.  A JS object is a key-ordered list of
properties; assigning an existing key overwrites it in place, and an object
spread assigns every own property of the source in order — so a key `0`
coming from `decoded.fields` OVERWRITES the `"N/A"` entry written first.
Property reads return the value of the (unique) matching key. -/

def objSet (o : List (Nat × String)) (k : Nat) (v : String) :
    List (Nat × String) :=
  if o.any (fun p => p.1 = k) then
    o.map (fun p => if p.1 = k then (k, v) else p)
  else o ++ [(k, v)]

def objSpread (base fields : List (Nat × String)) : List (Nat × String) :=
  fields.foldl (fun acc p => objSet acc p.1 p.2) base

def objGet (o : List (Nat × String)) (k : Nat) : Option String :=
  (o.find? (fun p => p.1 = k)).map Prod.snd

/-! ## Engine state (tm_websocket.js, constructor) and inbound notices

The mutable per-instance fields of `VexTMWebsocket` that the notice
interpreter touches.  JS `null` initializers become `none`;
`onMatchInfoChangeCallback` is abstracted to the Bool `callbackRegistered`
(it is `null` until `onMatchInfoChange` is called). -/

structure TMState where
  currentFieldId : Option Nat
  matchRunning : Bool
  currentMatch : Option String
  currentState : Option String
  currentMatchTime : Nat
  currentDisplay : Option Nat
  fieldList : Option (List (Nat × String))
  callbackRegistered : Bool
deriving DecidableEq, Repr

/-- The state set up by the `VexTMWebsocket` constructor. -/
def initialState : TMState :=
  { currentFieldId := none
    matchRunning := false
    currentMatch := none
    currentState := none
    currentMatchTime := 0
    currentDisplay := none
    fieldList := none
    callbackRegistered := false }

/-- A decoded `FieldSetNotice` protobuf message (`fieldset.proto`).  Scalar
fields decode to their protobuf defaults when absent (`fieldId = 0`,
`remaining = 0`); the embedded message field `match` (here `matchTuple`,
since `match` is a Lean keyword) is `null` when absent. -/
structure FieldSetNotice where
  id : Nat
  fieldId : Nat
  matchTuple : Option V3MatchTuple
  remaining : Nat
  fields : List (Nat × String)

/-- A JavaScript runtime exception (here always the `TypeError` thrown by
indexing `null` or calling `null`). -/
inductive JsError
  | typeError
deriving DecidableEq, Repr

/-- The snapshot object `_whenMatchInfoChanged` passes to the change
callback (keys `match`, `state`, `time`, `isRunning`, `field`). -/
structure Snapshot where
  matchName : Option String
  state : Option String
  time : Nat
  isRunning : Bool
  field : Option String
deriving DecidableEq, Repr

/-- `_whenMatchInfoChanged` (tm_websocket.js): builds the snapshot and calls
the registered callback.  `this.fieldList[this.currentFieldId]` throws a
`TypeError` when `fieldList` is still `null` (the argument object is built
before the call, so this throw happens first); calling a still-`null`
`onMatchInfoChangeCallback` also throws.  A field id missing from the list
(or a still-`null` id) reads as `undefined`, which does not throw. -/
def _whenMatchInfoChanged (s : TMState) : Except JsError Snapshot :=
  match s.fieldList with
  | none => .error .typeError
  | some fl =>
    if s.callbackRegistered then
      .ok { matchName := s.currentMatch
            state := s.currentState
            time := s.currentMatchTime
            isRunning := s.matchRunning
            field := match s.currentFieldId with
              | none => none
              | some i => objGet fl i }
    else .error .typeError

/-- Helper: run `_whenMatchInfoChanged` after a state update; on a throw the
mutations made before the throw persist, so the error carries the state. -/
def emitChange (s : TMState) :
    Except (JsError × TMState) (TMState × Option Snapshot) :=
  match _whenMatchInfoChanged s with
  | .ok snap => .ok (s, some snap)
  | .error e => .error (e, s)

/-- `_messageHandler` (tm_websocket.js), at the level of already-unmangled,
already-protobuf-decoded notices (`_unmangle` and `FieldSetNotice.decode`
are applied to the raw frame before this dispatch).  Returns the new state
and the snapshot passed to the change callback, or the thrown error paired
with the (already mutated) state. -/
def _messageHandler (s : TMState) (n : FieldSetNotice) :
    Except (JsError × TMState) (TMState × Option Snapshot) :=
  if n.id = 8 then -- match queued
    emitChange { s with
      currentFieldId := some (if n.fieldId ≠ 0 then n.fieldId else 0)
      currentMatch := some (match n.matchTuple with
        | some m => _buildMatchName m
        | none => "NONE") }
  else if n.id = 1 then -- match started
    let state :=
      if s.currentMatch = some "TO" then "TIMEOUT"
      else if [15, 14, 45, 44].contains s.currentMatchTime then "AUTO"
      else if [60, 59].contains s.currentMatchTime then
        (if s.currentMatch = some "A Coding" then "AUTO" else "DRIVER")
      else "DRIVER"
    emitChange { s with
      matchRunning := true
      currentState := some state
      currentFieldId := some n.fieldId }
  else if n.id = 2 ∨ n.id = 5 then -- match stopped or aborted
    emitChange { s with
      matchRunning := false
      currentFieldId := some n.fieldId
      currentState := some "DSBL" }
  else if n.id = 3 then -- match paused
    emitChange { s with
      matchRunning := false
      currentFieldId := some n.fieldId
      currentState := some "PAUSED" }
  else if n.id = 6 then -- time updated
    emitChange { s with currentMatchTime := n.remaining }
  else if n.id = 13 then -- field list
    .ok ({ s with fieldList := some (objSpread [(0, "N/A")] n.fields) }, none)
  else if n.id = 14 then -- field activated
    emitChange { s with currentFieldId := some n.fieldId }
  else
    .ok (s, none)

/-- The engine state after a handler run, whether or not it threw (JS
mutations made before a throw persist). -/
def stateAfter (r : Except (JsError × TMState) (TMState × Option Snapshot)) :
    TMState :=
  match r with
  | .ok (s, _) => s
  | .error (_, s) => s

/-! ## Field registry and id 0 (claim C2) -/

/-- The field list of the newer generation (`plugin_node/main.js`):
`fields.push({id: 0, name: ""})` appends the id-0 entry AFTER the
server-provided list. -/
def newGenFieldList (serverFields : List (Nat × String)) :
    List (Nat × String) :=
  serverFields ++ [(0, "")]

/-- Field-name lookup of the newer generation:
`fields.find(f => f.id == fieldID).name` — `Array.find` returns the FIRST
matching entry. -/
def newGenFieldName (fields : List (Nat × String)) (fieldID : Nat) :
    Option String :=
  (fields.find? (fun f => f.1 = fieldID)).map Prod.snd

theorem objGet_objSet_ne (o : List (Nat × String)) (k : Nat) (v : String)
    (j : Nat) (h : k ≠ j) : objGet (objSet o k v) j = objGet o j := by
  unfold objSet objGet
  split_ifs with hany
  · rw [List.find?_map]
    have hq : ((fun p : Nat × String => decide (p.1 = j)) ∘
        (fun p : Nat × String => if p.1 = k then (k, v) else p)) =
        (fun p : Nat × String => decide (p.1 = j)) := by
      funext p
      by_cases hp : p.1 = k
      · simp [hp, h]
      · simp [hp]
    rw [hq]
    cases hfind : List.find? (fun p : Nat × String => decide (p.1 = j)) o with
    | none => rfl
    | some p =>
      have hp := List.find?_some hfind
      have hpj : p.1 = j := by simpa using hp
      have : p.1 ≠ k := by rw [hpj]; exact fun hkj => h hkj.symm
      simp [Option.map_map, this]
  · rw [List.find?_append]
    cases hfind : List.find? (fun p : Nat × String => decide (p.1 = j)) o with
    | none => simp [h]
    | some p => rfl

theorem objGet_objSpread_zero (fields : List (Nat × String))
    (base : List (Nat × String)) (hbase : objGet base 0 = some "N/A")
    (h : ∀ p ∈ fields, p.1 ≠ 0) :
    objGet (objSpread base fields) 0 = some "N/A" := by
  induction fields generalizing base with
  | nil => simpa [objSpread] using hbase
  | cons p rest ih =>
    have hp : p.1 ≠ 0 := h p (List.mem_cons_self p rest)
    unfold objSpread at ih ⊢
    rw [List.foldl_cons]
    exact ih (objSet base p.1 p.2)
      (by rw [objGet_objSet_ne base p.1 p.2 0 hp]; exact hbase)
      (fun q hq => h q (List.mem_cons_of_mem p hq))

/-- C2 (amended): after a field-list notice whose server-supplied mapping
contains NO entry for id 0, the registry maps id 0 to `"N/A"` (binary
generation) resp. `""` (newer generation).  When the server's list does
contain id 0, the server's entry wins instead (see
`fieldList_zero_counterexample`). -/
theorem fieldList_zero_of_not_contains (s : TMState) (n : FieldSetNotice)
    (hid : n.id = 13) (h0 : ∀ p ∈ n.fields, p.1 ≠ 0) :
    ((stateAfter (_messageHandler s n)).fieldList.map
        (fun fl => objGet fl 0)) = some (some "N/A") ∧
    newGenFieldName (newGenFieldList n.fields) 0 = some "" := by
  constructor
  · have h13 : _messageHandler s n =
        .ok ({ s with fieldList := some (objSpread [(0, "N/A")] n.fields) },
          none) := by
      unfold _messageHandler
      rw [hid]
      norm_num
    rw [h13]
    unfold stateAfter
    show some (objGet (objSpread [(0, "N/A")] n.fields) 0) = some (some "N/A")
    rw [objGet_objSpread_zero n.fields [(0, "N/A")] (by rfl) h0]
  · unfold newGenFieldName newGenFieldList
    rw [List.find?_append]
    have hnone : List.find? (fun f : Nat × String => decide (f.1 = 0))
        n.fields = none := by
      rw [List.find?_eq_none]
      intro p hp
      simpa using h0 p hp
    rw [hnone]
    rfl

/-- Witness for `fieldList_zero_of_not_contains`: a field-list notice
carrying fields 1 and 2 only. -/
theorem fieldList_zero_witness :
    (13 : Nat) = 13 ∧
    (∀ p ∈ [((1 : Nat), "Field 1"), (2, "Field 2")], p.1 ≠ 0) ∧
    (((stateAfter (_messageHandler initialState
          ⟨13, 0, none, 0, [(1, "Field 1"), (2, "Field 2")]⟩)).fieldList.map
        (fun fl => objGet fl 0)) = some (some "N/A") ∧
      newGenFieldName (newGenFieldList [(1, "Field 1"), (2, "Field 2")]) 0 =
        some "") :=
  ⟨rfl, by decide,
    fieldList_zero_of_not_contains initialState
      ⟨13, 0, none, 0, [(1, "Field 1"), (2, "Field 2")]⟩ rfl (by decide)⟩

/-- C2 counterexample: the claim fails when the server's field list itself
contains an entry for id 0.  The object spread `{0: "N/A", ...fields}`
lets the server's entry overwrite the injected `"N/A"`: after a field-list
notice carrying `{0: "Field X"}`, the registry resolves id 0 to
`"Field X"`, not to `"N/A"` (and not to the empty name). -/
theorem fieldList_zero_counterexample :
    ((stateAfter (_messageHandler initialState
        ⟨13, 0, none, 0, [(0, "Field X")]⟩)).fieldList.map
      (fun fl => objGet fl 0)) = some (some "Field X") ∧
    (some (some "Field X") : Option (Option String)) ≠ some (some "N/A") ∧
    (some (some "Field X") : Option (Option String)) ≠ some (some "") ∧
    newGenFieldName (newGenFieldList [(0, "Field X")]) 0 = some "Field X" := by
  refine ⟨by rfl, by decide, by decide, by rfl⟩

/-! ## Match-started phase derivation (claim C4) -/

theorem stateAfter_emitChange (s : TMState) :
    stateAfter (emitChange s) = s := by
  unfold emitChange stateAfter
  cases _whenMatchInfoChanged s <;> rfl

/-- C4: on a match-started notice (id 1), the timing phase is derived from
the current match name and remaining time with the exact precedence: name
`"TO"` gives `TIMEOUT`; otherwise remaining time in {15,14,45,44} gives
`AUTO`; otherwise remaining time in {60,59} gives `AUTO` for name
`"A Coding"` and `DRIVER` for any other name; otherwise `DRIVER`.  The
running flag is set and the field id is taken from the notice. -/
theorem match_started_phase (s : TMState) (n : FieldSetNotice)
    (hid : n.id = 1) :
    (stateAfter (_messageHandler s n)).matchRunning = true ∧
    (stateAfter (_messageHandler s n)).currentFieldId = some n.fieldId ∧
    (s.currentMatch = some "TO" →
      (stateAfter (_messageHandler s n)).currentState = some "TIMEOUT") ∧
    (s.currentMatch ≠ some "TO" → s.currentMatchTime ∈ [15, 14, 45, 44] →
      (stateAfter (_messageHandler s n)).currentState = some "AUTO") ∧
    (s.currentMatch ≠ some "TO" → s.currentMatchTime ∉ [15, 14, 45, 44] →
      s.currentMatchTime ∈ [60, 59] → s.currentMatch = some "A Coding" →
      (stateAfter (_messageHandler s n)).currentState = some "AUTO") ∧
    (s.currentMatch ≠ some "TO" → s.currentMatchTime ∉ [15, 14, 45, 44] →
      s.currentMatchTime ∈ [60, 59] → s.currentMatch ≠ some "A Coding" →
      (stateAfter (_messageHandler s n)).currentState = some "DRIVER") ∧
    (s.currentMatch ≠ some "TO" → s.currentMatchTime ∉ [15, 14, 45, 44] →
      s.currentMatchTime ∉ [60, 59] →
      (stateAfter (_messageHandler s n)).currentState = some "DRIVER") := by
  have hred : stateAfter (_messageHandler s n) = { s with
      matchRunning := true
      currentState := some (if s.currentMatch = some "TO" then "TIMEOUT"
        else if [15, 14, 45, 44].contains s.currentMatchTime then "AUTO"
        else if [60, 59].contains s.currentMatchTime then
          (if s.currentMatch = some "A Coding" then "AUTO" else "DRIVER")
        else "DRIVER")
      currentFieldId := some n.fieldId } := by
    unfold _messageHandler
    rw [hid]
    norm_num [stateAfter_emitChange]
  rw [hred]
  refine ⟨rfl, rfl, ?_, ?_, ?_, ?_, ?_⟩ <;> intros <;> simp_all

/-- Witness for `match_started_phase`: match-started notice with field 3,
starting from the constructor state at remaining time 0. -/
theorem match_started_phase_witness :
    (FieldSetNotice.id ⟨1, 3, none, 0, []⟩ = 1) ∧
    ((stateAfter (_messageHandler initialState ⟨1, 3, none, 0, []⟩)).matchRunning
        = true ∧
      (stateAfter (_messageHandler initialState
        ⟨1, 3, none, 0, []⟩)).currentFieldId = some 3 ∧
      (initialState.currentMatch = some "TO" →
        (stateAfter (_messageHandler initialState
          ⟨1, 3, none, 0, []⟩)).currentState = some "TIMEOUT") ∧
      (initialState.currentMatch ≠ some "TO" →
        initialState.currentMatchTime ∈ [15, 14, 45, 44] →
        (stateAfter (_messageHandler initialState
          ⟨1, 3, none, 0, []⟩)).currentState = some "AUTO") ∧
      (initialState.currentMatch ≠ some "TO" →
        initialState.currentMatchTime ∉ [15, 14, 45, 44] →
        initialState.currentMatchTime ∈ [60, 59] →
        initialState.currentMatch = some "A Coding" →
        (stateAfter (_messageHandler initialState
          ⟨1, 3, none, 0, []⟩)).currentState = some "AUTO") ∧
      (initialState.currentMatch ≠ some "TO" →
        initialState.currentMatchTime ∉ [15, 14, 45, 44] →
        initialState.currentMatchTime ∈ [60, 59] →
        initialState.currentMatch ≠ some "A Coding" →
        (stateAfter (_messageHandler initialState
          ⟨1, 3, none, 0, []⟩)).currentState = some "DRIVER") ∧
      (initialState.currentMatch ≠ some "TO" →
        initialState.currentMatchTime ∉ [15, 14, 45, 44] →
        initialState.currentMatchTime ∉ [60, 59] →
        (stateAfter (_messageHandler initialState
          ⟨1, 3, none, 0, []⟩)).currentState = some "DRIVER")) :=
  ⟨rfl, match_started_phase initialState ⟨1, 3, none, 0, []⟩ rfl⟩

/-! ## Change notification before a field list was received (claim C10) -/

/-- C10: every state-affecting notice handler (match-queued id 8,
match-started id 1, match-stopped id 2, match-aborted id 5, match-paused
id 3, time-updated id 6, field-activated id 14) ends by building the change
snapshot, which indexes the field registry by the current field id; when
the registry is still `null` (as in the constructor state, before any
field-list notice) — or when no change callback was registered — handling
such a notice throws instead of delivering a snapshot. -/
theorem notice_throws_without_registry (s : TMState) (n : FieldSetNotice)
    (hid : n.id = 8 ∨ n.id = 1 ∨ n.id = 2 ∨ n.id = 5 ∨ n.id = 3 ∨
      n.id = 6 ∨ n.id = 14)
    (hreg : s.fieldList = none ∨ s.callbackRegistered = false) :
    ∃ e, _messageHandler s n = Except.error e := by
  have hemit : ∀ s' : TMState,
      s'.fieldList = none ∨ s'.callbackRegistered = false →
      ∃ e, emitChange s' = Except.error e := by
    intro s' h
    unfold emitChange _whenMatchInfoChanged
    rcases h with h | h
    · rw [h]
      exact ⟨(.typeError, s'), rfl⟩
    · cases hfl : s'.fieldList with
      | none => exact ⟨(.typeError, s'), rfl⟩
      | some fl =>
        rw [h]
        exact ⟨(.typeError, s'), by simp⟩
  have hforward : ∀ s' : TMState, s'.fieldList = s.fieldList →
      s'.callbackRegistered = s.callbackRegistered →
      ∃ e, emitChange s' = Except.error e := by
    intro s' hfl hcb
    refine hemit s' ?_
    rw [hfl, hcb]
    exact hreg
  rcases hid with h | h | h | h | h | h | h
  · unfold _messageHandler
    rw [h, if_pos rfl]
    exact hforward _ rfl rfl
  · unfold _messageHandler
    rw [h, if_neg (by norm_num), if_pos rfl]
    exact hforward _ rfl rfl
  · unfold _messageHandler
    rw [h, if_neg (by norm_num), if_neg (by norm_num),
      if_pos (by norm_num : (2 : Nat) = 2 ∨ (2 : Nat) = 5)]
    exact hforward _ rfl rfl
  · unfold _messageHandler
    rw [h, if_neg (by norm_num), if_neg (by norm_num),
      if_pos (by norm_num : (5 : Nat) = 2 ∨ (5 : Nat) = 5)]
    exact hforward _ rfl rfl
  · unfold _messageHandler
    rw [h, if_neg (by norm_num), if_neg (by norm_num),
      if_neg (by norm_num : ¬((3 : Nat) = 2 ∨ (3 : Nat) = 5)),
      if_pos rfl]
    exact hforward _ rfl rfl
  · unfold _messageHandler
    rw [h, if_neg (by norm_num), if_neg (by norm_num),
      if_neg (by norm_num : ¬((6 : Nat) = 2 ∨ (6 : Nat) = 5)),
      if_neg (by norm_num), if_pos rfl]
    exact hforward _ rfl rfl
  · unfold _messageHandler
    rw [h, if_neg (by norm_num), if_neg (by norm_num),
      if_neg (by norm_num : ¬((14 : Nat) = 2 ∨ (14 : Nat) = 5)),
      if_neg (by norm_num), if_neg (by norm_num), if_neg (by norm_num),
      if_pos rfl]
    exact hforward _ rfl rfl

/-- Witness for `notice_throws_without_registry`: a time-updated notice
handled in the constructor state (no field list, no callback). -/
theorem notice_throws_witness :
    ((6 : Nat) = 8 ∨ (6 : Nat) = 1 ∨ (6 : Nat) = 2 ∨ (6 : Nat) = 5 ∨
      (6 : Nat) = 3 ∨ (6 : Nat) = 6 ∨ (6 : Nat) = 14) ∧
    (initialState.fieldList = none ∨ initialState.callbackRegistered = false) ∧
    ∃ e, _messageHandler initialState ⟨6, 0, none, 42, []⟩ =
      Except.error e :=
  ⟨by norm_num, Or.inl rfl,
    notice_throws_without_registry initialState ⟨6, 0, none, 42, []⟩
      (by norm_num) (Or.inl rfl)⟩

/-! ## Command façade (claims C7 and C9)

Each public command constructs a `FieldSetRequest` message, protobuf-encodes
and mangles it and sends it (`_sendFSRequest`).  Frames are modelled at the
message level; a command returns the (possibly updated) engine state and
the list of frames it sent. -/

inductive FSRequest
  | fieldControl (id : Nat) (fieldId : Option Nat)
  | queueMatch (type : Nat)
  | setActive (fieldId : Nat)
deriving DecidableEq, Repr

/-- `_sendFCRequest(value)`: a `FieldControlRequest` frame carrying `value`
and the current field id. -/
def _sendFCRequest (s : TMState) (value : Nat) : List FSRequest :=
  [FSRequest.fieldControl value s.currentFieldId]

/-- `start()`: sends a field-control frame with value 1 unless a match is
already running. -/
def start (s : TMState) : TMState × List FSRequest :=
  if ¬s.matchRunning then (s, _sendFCRequest s 1) else (s, [])

/-- `endEarly()`: sends a field-control frame with value 2 only while a
match is running. -/
def endEarly (s : TMState) : TMState × List FSRequest :=
  if s.matchRunning then (s, _sendFCRequest s 2) else (s, [])

/-- `startOrEnd()`: dispatches on the running flag. -/
def startOrEnd (s : TMState) : TMState × List FSRequest :=
  if s.matchRunning then endEarly s else start s

/-- `queuePrevMatch()`: empty body ("can't do this with the new protobuf
interface yet"). -/
def queuePrevMatch (s : TMState) : TMState × List FSRequest :=
  (s, [])

/-- `selectDisplay(d)`: empty body ("can't do this with the new protobuf
interface yet"). -/
def selectDisplay (s : TMState) (d : String) : TMState × List FSRequest :=
  (s, [])

/-- C7: `start()` sends no frame while the running flag is true and one
field-control frame with value 1 otherwise; `endEarly()` sends no frame
while the running flag is false and one field-control frame with value 2
otherwise; `startOrEnd()` dispatches to `endEarly()` when running and
`start()` otherwise; and two consecutive `start()` calls with `isRunning`
true after the first (a match-started notice arrived in between) send
exactly one field-control frame, carrying value 1. -/
theorem facade_start_end (s : TMState) (n : FieldSetNotice) :
    (s.matchRunning = true → start s = (s, [])) ∧
    (s.matchRunning = false →
      start s = (s, [FSRequest.fieldControl 1 s.currentFieldId])) ∧
    (s.matchRunning = false → endEarly s = (s, [])) ∧
    (s.matchRunning = true →
      endEarly s = (s, [FSRequest.fieldControl 2 s.currentFieldId])) ∧
    (s.matchRunning = true → startOrEnd s = endEarly s) ∧
    (s.matchRunning = false → startOrEnd s = start s) ∧
    (s.matchRunning = false → n.id = 1 →
      (start s).2 ++ (start (stateAfter (_messageHandler s n))).2 =
        [FSRequest.fieldControl 1 s.currentFieldId]) := by
  refine ⟨?_, ?_, ?_, ?_, ?_, ?_, ?_⟩
  · intro h; simp [start, h]
  · intro h; simp [start, h, _sendFCRequest]
  · intro h; simp [endEarly, h]
  · intro h; simp [endEarly, h, _sendFCRequest]
  · intro h; simp [startOrEnd, h]
  · intro h; simp [startOrEnd, h]
  · intro h h1
    have hrun : (stateAfter (_messageHandler s n)).matchRunning = true := by
      unfold _messageHandler
      rw [h1, if_neg (by norm_num), if_pos rfl, stateAfter_emitChange]
    simp [start, h, hrun, _sendFCRequest]

/-- Witness for `facade_start_end`: the constructor state (no match
running) and a match-started notice. -/
theorem facade_start_end_witness :
    start initialState = (initialState, [FSRequest.fieldControl 1 none]) ∧
    endEarly initialState = (initialState, []) ∧
    startOrEnd initialState = start initialState ∧
    (start initialState).2 ++
      (start (stateAfter (_messageHandler initialState
        ⟨1, 0, none, 0, []⟩))).2 = [FSRequest.fieldControl 1 none] :=
  ⟨(facade_start_end initialState ⟨1, 0, none, 0, []⟩).2.1 rfl,
    (facade_start_end initialState ⟨1, 0, none, 0, []⟩).2.2.1 rfl,
    (facade_start_end initialState ⟨1, 0, none, 0, []⟩).2.2.2.2.2.1 rfl,
    (facade_start_end initialState ⟨1, 0, none, 0, []⟩).2.2.2.2.2.2 rfl rfl⟩

/-- C9: under the binary protocol generation, `queuePrevMatch()` and
`selectDisplay(d)` are no-ops for every state and argument: they send no
frame and return the engine state unchanged in every field. -/
theorem noop_commands (s : TMState) (d : String) :
    queuePrevMatch s = (s, []) ∧ selectDisplay s d = (s, []) :=
  ⟨rfl, rfl⟩

/-! ## Session credential freshness (claim C8)

`_connectWebsocket` (tm_websocket.js): when the session cookie is missing
(`!this.cookie`) or its expiration lies before the current time
(`this.cookie_expiration < new Date()`), it re-authenticates, then tears
down and recreates the websocket.  `_send` first drives
`_connectWebsocket()` (lazy connect-on-send) and then transmits.  The
cookie and its expiration are always set together by `_authenticate`, so
they are modelled as one optional pair; times are UNIX milliseconds as
`Nat`.  `_authenticate` is a network round-trip returning a fresh cookie
and expiration, passed in here as the parameter `fresh`.  The handshake
sent from the websocket's async `open` callback is outside this model. -/

structure LegacySession where
  cookie : Option (String × Nat)
  websocket : Bool
deriving DecidableEq, Repr

inductive WireEvent
  | authenticate
  | openSocket
  | transmit (data : List Nat)
deriving DecidableEq, Repr

/-- The staleness test of `_connectWebsocket`:
`!this.cookie || this.cookie_expiration < new Date()`. -/
def cookieStale (s : LegacySession) (now : Nat) : Bool :=
  match s.cookie with
  | none => true
  | some (_, exp) => decide (exp < now)

def _connectWebsocket (s : LegacySession) (now : Nat)
    (fresh : String × Nat) (force : Bool) : LegacySession × List WireEvent :=
  let (s1, ev1) :=
    if cookieStale s now then
      ({ cookie := some fresh, websocket := false }, [WireEvent.authenticate])
    else (s, ([] : List WireEvent))
  let s2 := if force then { s1 with websocket := false } else s1
  if s2.websocket then (s2, ev1)
  else ({ s2 with websocket := true }, ev1 ++ [WireEvent.openSocket])

def _send (s : LegacySession) (now : Nat) (fresh : String × Nat)
    (data : List Nat) : LegacySession × List WireEvent :=
  let (s1, ev) := _connectWebsocket s now fresh false
  (s1, ev ++ [WireEvent.transmit data])

/-- Counts the authentication round-trips in an event list. -/
def authCount (ev : List WireEvent) : Nat :=
  ev.countP (fun e => match e with
    | WireEvent.authenticate => true
    | _ => false)

/-- C8: for every send operation, if the cached session cookie is absent or
its expiration is in the past at send time, exactly one re-authentication
is performed — obtaining the fresh cookie and expiration — before the data
is transmitted; if the cookie is present and unexpired, no
re-authentication occurs. -/
theorem send_reauth (s : LegacySession) (now : Nat) (fresh : String × Nat)
    (data : List Nat) :
    (cookieStale s now = true →
      (_send s now fresh data).2 =
        [WireEvent.authenticate, WireEvent.openSocket,
          WireEvent.transmit data] ∧
      authCount (_send s now fresh data).2 = 1 ∧
      (_send s now fresh data).1.cookie = some fresh) ∧
    (cookieStale s now = false →
      authCount (_send s now fresh data).2 = 0 ∧
      (_send s now fresh data).2.getLast? = some (WireEvent.transmit data) ∧
      (_send s now fresh data).1.cookie = s.cookie) := by
  constructor
  · intro h
    simp [_send, _connectWebsocket, h, authCount]
  · intro h
    unfold _send _connectWebsocket
    rw [h]
    by_cases hw : s.websocket <;> simp [hw, authCount]

/-- Witness for `send_reauth`: a session whose cookie expired at time 5,
sending at time 10 (stale case), and an unexpired session with the same
expiration, sending at time 3 (fresh case). -/
theorem send_reauth_witness :
    (cookieStale ⟨some ("user", 5), false⟩ 10 = true ∧
      (_send ⟨some ("user", 5), false⟩ 10 ("fresh", 99) [7]).2 =
        [WireEvent.authenticate, WireEvent.openSocket,
          WireEvent.transmit [7]] ∧
      authCount (_send ⟨some ("user", 5), false⟩ 10 ("fresh", 99) [7]).2
        = 1 ∧
      (_send ⟨some ("user", 5), false⟩ 10 ("fresh", 99) [7]).1.cookie =
        some ("fresh", 99)) ∧
    (cookieStale ⟨some ("user", 5), false⟩ 3 = false ∧
      authCount (_send ⟨some ("user", 5), false⟩ 3 ("fresh", 99) [7]).2
        = 0 ∧
      (_send ⟨some ("user", 5), false⟩ 3 ("fresh", 99) [7]).2.getLast? =
        some (WireEvent.transmit [7]) ∧
      (_send ⟨some ("user", 5), false⟩ 3 ("fresh", 99) [7]).1.cookie =
        some ("user", 5)) :=
  ⟨⟨rfl, (send_reauth ⟨some ("user", 5), false⟩ 10 ("fresh", 99) [7]).1 rfl⟩,
    ⟨rfl, (send_reauth ⟨some ("user", 5), false⟩ 3 ("fresh", 99) [7]).2 rfl⟩⟩

/-! ## Handshake frame (claim C6)

`_generateHandshake` (tm_websocket.js) converts the current UNIX timestamp
(seconds) to a big-endian hex string with `toString(16)`, allocates a
zeroed `Uint8Array(128)` and writes `parseInt` of the 2-character slices
`[6,8)`, `[4,6)`, `[2,4)`, `[0,2)` of that string to offsets 7, 8, 9, 10.
The hex string is modelled as its big-endian digit list; `Uint8Array`
stores truncate modulo 256. -/

/-- Little-endian base-16 digit list of `n` (empty for 0), i.e. the
reversed digit string of JS `n.toString(16)`. -/
def hexLE (n : Nat) : List Nat :=
  if h : n = 0 then [] else n % 16 :: hexLE (n / 16)
decreasing_by exact Nat.div_lt_self (Nat.pos_of_ne_zero h) (by omega)

/-- Big-endian digit list of `n.toString(16)` (for `n ≠ 0`). -/
def toString16 (n : Nat) : List Nat :=
  (hexLE n).reverse

/-- `String.prototype.slice(a, b)` on a digit list. -/
def jsSlice (l : List Nat) (a b : Nat) : List Nat :=
  (l.drop a).take (b - a)

/-- `parseInt(s, 16)` of an (at most 2-digit) hex string; `parseInt("")` is
`NaN`, which a `Uint8Array` stores as 0. -/
def parseInt16 : List Nat → Nat
  | [] => 0
  | [d] => d
  | d1 :: d2 :: _ => 16 * d1 + d2

def _generateHandshake (t : Nat) : List Nat :=
  (List.range 128).map (fun i =>
    if i = 7 then parseInt16 (jsSlice (toString16 t) 6 8) % 256
    else if i = 8 then parseInt16 (jsSlice (toString16 t) 4 6) % 256
    else if i = 9 then parseInt16 (jsSlice (toString16 t) 2 4) % 256
    else if i = 10 then parseInt16 (jsSlice (toString16 t) 0 2) % 256
    else 0)

theorem hexLE_step (n : Nat) (h : n ≠ 0) :
    hexLE n = n % 16 :: hexLE (n / 16) := by
  rw [hexLE]
  simp [h]

theorem hexLE_zero : hexLE 0 = [] := by
  rw [hexLE]
  simp

/-- For timestamps whose hex form has exactly 8 digits (all of 2004–2106),
`toString(16)` yields the 8 base-16 digits, most significant first. -/
theorem toString16_eq (t : Nat) (h1 : 2 ^ 28 ≤ t) (h2 : t < 2 ^ 32) :
    toString16 t = [t / 268435456 % 16, t / 16777216 % 16,
      t / 1048576 % 16, t / 65536 % 16, t / 4096 % 16, t / 256 % 16,
      t / 16 % 16, t % 16] := by
  unfold toString16
  rw [hexLE_step t (by omega), hexLE_step (t / 16) (by omega),
    show t / 16 / 16 = t / 256 by omega,
    hexLE_step (t / 256) (by omega),
    show t / 256 / 16 = t / 4096 by omega,
    hexLE_step (t / 4096) (by omega),
    show t / 4096 / 16 = t / 65536 by omega,
    hexLE_step (t / 65536) (by omega),
    show t / 65536 / 16 = t / 1048576 by omega,
    hexLE_step (t / 1048576) (by omega),
    show t / 1048576 / 16 = t / 16777216 by omega,
    hexLE_step (t / 16777216) (by omega),
    show t / 16777216 / 16 = t / 268435456 by omega,
    hexLE_step (t / 268435456) (by omega),
    show t / 268435456 / 16 = 0 by omega,
    hexLE_zero]
  rfl

theorem generateHandshake_getD (t : Nat) (i : Nat) (h : i < 128) :
    (_generateHandshake t).getD i 0 =
      (if i = 7 then parseInt16 (jsSlice (toString16 t) 6 8) % 256
       else if i = 8 then parseInt16 (jsSlice (toString16 t) 4 6) % 256
       else if i = 9 then parseInt16 (jsSlice (toString16 t) 2 4) % 256
       else if i = 10 then parseInt16 (jsSlice (toString16 t) 0 2) % 256
       else 0) := by
  unfold _generateHandshake
  rw [List.getD_eq_getElem?_getD, List.getElem?_map _ _ i]
  simp [List.getElem?_range, h]

/-- C6: the generated handshake frame is exactly 128 bytes long; every byte
outside offsets 7..10 is zero; and the four bytes at offsets 7..10, decoded
as a little-endian unsigned integer, equal the UNIX timestamp `t` at encode
time — hence within ±300 seconds of it.  (The hypotheses say `t`'s hex
form has 8 digits, true for every wall-clock second from 2004 to 2106.) -/
theorem handshake_spec (t : Nat) (h1 : 2 ^ 28 ≤ t) (h2 : t < 2 ^ 32) :
    (_generateHandshake t).length = 128 ∧
    (∀ i, i < 128 → i < 7 ∨ 10 < i → (_generateHandshake t).getD i 0 = 0) ∧
    (_generateHandshake t).getD 7 0 + 256 * (_generateHandshake t).getD 8 0 +
      65536 * (_generateHandshake t).getD 9 0 +
      16777216 * (_generateHandshake t).getD 10 0 = t ∧
    (_generateHandshake t).getD 7 0 + 256 * (_generateHandshake t).getD 8 0 +
      65536 * (_generateHandshake t).getD 9 0 +
      16777216 * (_generateHandshake t).getD 10 0 ≤ t + 300 ∧
    t ≤ (_generateHandshake t).getD 7 0 +
      256 * (_generateHandshake t).getD 8 0 +
      65536 * (_generateHandshake t).getD 9 0 +
      16777216 * (_generateHandshake t).getD 10 0 + 300 := by
  have hdecode : (_generateHandshake t).getD 7 0 +
      256 * (_generateHandshake t).getD 8 0 +
      65536 * (_generateHandshake t).getD 9 0 +
      16777216 * (_generateHandshake t).getD 10 0 = t := by
    rw [generateHandshake_getD t 7 (by omega),
      generateHandshake_getD t 8 (by omega),
      generateHandshake_getD t 9 (by omega),
      generateHandshake_getD t 10 (by omega)]
    norm_num [toString16_eq t h1 h2, jsSlice, parseInt16]
    omega
  refine ⟨?_, ?_, hdecode, by omega, by omega⟩
  · unfold _generateHandshake
    simp
  · intro i hi hrange
    rw [generateHandshake_getD t i hi]
    have hne : i ≠ 7 ∧ i ≠ 8 ∧ i ≠ 9 ∧ i ≠ 10 := by omega
    simp [hne.1, hne.2.1, hne.2.2.1, hne.2.2.2]

/-- Witness for `handshake_spec` at `t = 1760000000` (October 2025). -/
theorem handshake_spec_witness :
    2 ^ 28 ≤ 1760000000 ∧ (1760000000 : Nat) < 2 ^ 32 ∧
    (_generateHandshake 1760000000).length = 128 ∧
    (_generateHandshake 1760000000).getD 0 0 = 0 ∧
    (_generateHandshake 1760000000).getD 7 0 +
      256 * (_generateHandshake 1760000000).getD 8 0 +
      65536 * (_generateHandshake 1760000000).getD 9 0 +
      16777216 * (_generateHandshake 1760000000).getD 10 0 = 1760000000 :=
  ⟨by norm_num, by norm_num,
    (handshake_spec 1760000000 (by norm_num) (by norm_num)).1,
    (handshake_spec 1760000000 (by norm_num) (by norm_num)).2.1 0
      (by norm_num) (Or.inl (by norm_num)),
    (handshake_spec 1760000000 (by norm_num) (by norm_num)).2.2.1⟩

/-! ## Reconnect supervisor (claim C3)

The binary-generation driver (`us.johnholbrook.vextm.sdPlugin/plugin_node/main.js`,
`didReceiveGlobalSettings` handler) loops
`while (!tm_conn_established)`: it recreates the `VexTMWebsocket`, awaits
`init()`, and on an exception logs, broadcasts one `showAlert` event to
every active action (counted here as one alert raise), waits 10000 ms and
retries.  `outcome i` is whether connect attempt number `i` succeeds. -/

structure ReconnectState where
  attempts : Nat
  alerts : Nat
  delays : List Nat
  established : Bool
deriving DecidableEq, Repr

def reconnectStep (outcome : Nat → Bool) (s : ReconnectState) :
    ReconnectState :=
  if s.established then s
  else if outcome s.attempts then
    { s with attempts := s.attempts + 1, established := true }
  else
    { attempts := s.attempts + 1
      alerts := s.alerts + 1
      delays := s.delays ++ [10000]
      established := false }

def reconnectRun (outcome : Nat → Bool) : Nat → ReconnectState
  | 0 => ⟨0, 0, [], false⟩
  | n + 1 => reconnectStep outcome (reconnectRun outcome n)

/-- The connect handler of the newer generation (`plugin_node/main.js`,
`didReceiveGlobalSettings`): ONE call to `tm_client.connect()`; on failure
it logs "Failed to connect to TM, try again by clicking 'RECONNECT'" and
returns — the 10-second retry loop is commented out, no `showAlert` event
is sent, and no further attempt is scheduled. -/
structure NewGenConnectResult where
  attempts : Nat
  alertsRaised : Nat
  established : Bool
  willRetry : Bool
deriving DecidableEq, Repr

def newGenConnectOnce (connSuccess : Bool) : NewGenConnectResult :=
  { attempts := 1
    alertsRaised := 0
    established := connSuccess
    willRetry := false }

/-- C3 (amended, binary-generation driver): for every number `N` of
consecutive connection failures, the retry loop has raised exactly `N`
alert events, waited the fixed 10000 ms backoff after each failure, and is
still not established — so it attempts a further connect; if that next
attempt succeeds, the loop exits with `N + 1` attempts and exactly `N`
alerts.  Holding for every `N`, this is the loop never giving up. -/
theorem reconnect_legacy_loop (outcome : Nat → Bool) (N : Nat)
    (hfail : ∀ i < N, outcome i = false) :
    reconnectRun outcome N = ⟨N, N, List.replicate N 10000, false⟩ ∧
    (outcome N = true →
      reconnectRun outcome (N + 1) =
        ⟨N + 1, N, List.replicate N 10000, true⟩) := by
  induction N with
  | zero =>
    refine ⟨rfl, fun hN => ?_⟩
    simp [reconnectRun, reconnectStep, hN]
  | succ n ih =>
    have hrun : reconnectRun outcome n =
        ⟨n, n, List.replicate n 10000, false⟩ :=
      (ih (fun i hi => hfail i (Nat.lt_succ_of_lt hi))).1
    have hn : outcome n = false := hfail n (Nat.lt_succ_self n)
    have hstep : reconnectRun outcome (n + 1) =
        ⟨n + 1, n + 1, List.replicate (n + 1) 10000, false⟩ := by
      show reconnectStep outcome (reconnectRun outcome n) = _
      rw [hrun]
      simp [reconnectStep, hn, List.replicate_succ']
    refine ⟨hstep, fun hN => ?_⟩
    show reconnectStep outcome (reconnectRun outcome (n + 1)) = _
    rw [hstep]
    simp [reconnectStep, hN]

/-- Witness for `reconnect_legacy_loop`: attempts 0 and 1 fail, attempt 2
succeeds. -/
theorem reconnect_legacy_witness :
    (∀ i < 2, (fun i => decide (2 ≤ i)) i = false) ∧
    (reconnectRun (fun i => decide (2 ≤ i)) 2 =
        ⟨2, 2, List.replicate 2 10000, false⟩ ∧
      ((fun i => decide (2 ≤ i)) 2 = true →
        reconnectRun (fun i => decide (2 ≤ i)) 3 =
          ⟨3, 2, List.replicate 2 10000, true⟩)) :=
  ⟨by decide, reconnect_legacy_loop (fun i => decide (2 ≤ i)) 2 (by decide)⟩

/-- C3 counterexample: the claim fails on the newer generation's driver
(`plugin_node/main.js`, also cited by the claim).  After `N = 1` failed
connection attempt the claim predicts exactly 1 caller-visible alert event
and a further connect attempt; the handler raises 0 alert events and
schedules no retry. -/
theorem reconnect_newgen_counterexample :
    (newGenConnectOnce false).established = false ∧
    (newGenConnectOnce false).attempts = 1 ∧
    (newGenConnectOnce false).alertsRaised = 0 ∧
    (newGenConnectOnce false).willRetry = false ∧
    ¬((newGenConnectOnce false).alertsRaised = 1 ∧
      (newGenConnectOnce false).willRetry = true) := by
  refine ⟨rfl, rfl, rfl, rfl, ?_⟩
  intro h
  exact absurd h.1 (by decide)

end VexTM
